import Mathlib

/-
Verification development for the awair-local-prom-exporter program
(src/main.go). The program polls a local Awair sensor over HTTP, decodes
the JSON body into the AwairStats record, and writes the 14 numeric
readings into prometheus gauges; a metrics HTTP server exposes the gauges.

Shallow embedding conventions:
  - JSON documents are modelled by the inductive Json below; a JSON number
    is carried as an exact rational (Go float64 / int decoding is modelled
    over these rationals, so numeric literals are abstracted by their
    value).
  - Go encoding/json unmarshalling into the AwairStats struct is modelled
    field by field: member keys are matched against the json tags of the
    struct (exact match first, then an ASCII case-insensitive match,
    mirroring the stdlib field matcher), unknown keys are ignored, JSON
    null into a field is a silent no-op, absent fields keep the Go zero
    value, a type mismatch is a decode error, and a decode error makes
    json.Unmarshal return a non-nil error. The stdlib collects the first
    error while continuing to scan; since the caller discards the partially
    filled record whenever the error is non-nil, the embedding
    short-circuits on the first error, which is observationally the same.
  - time.Time.UnmarshalJSON (for the timestamp field) requires a JSON
    string holding an RFC3339 time; the RFC3339 parser itself lives in the
    Go standard library, so the embedding is parametric in a parser
    pt : String -> Option Int (Int standing for the decoded time value).
  - The prometheus gauge set is the GaugeState record, one rational slot
    per gauge, zero-initialised as prometheus gauges are.
  - One fetch attempt of getAwairData interacts with the outside world at
    four points (request construction, transport, body read, JSON decode);
    the FetchOutcome type enumerates how the environment behaves at those
    points, and getAwairData maps an outcome and the prior gauge state to
    the error result and the new gauge state, translating the early-return
    structure of src/main.go lines 242-290.
-/

namespace AwairExporter

/-- A parsed JSON document. Numbers are carried as exact rationals. -/
inductive Json where
  | null
  | bool (b : Bool)
  | num (q : ℚ)
  | str (s : String)
  | arr (elems : List Json)
  | obj (members : List (String × Json))

/-- The 14 numeric fields of the AwairStats struct (src/main.go lines
49-62), i.e. every struct field except the timestamp. -/
inductive Field14 where
  | score | dewPoint | temp | humid | absHumid | co2 | co2Est
  | co2EstBaseline | voc | vocBaseline | vocH2Raw | vocEthanolRaw
  | pm25 | pm10Est
  deriving DecidableEq

/-- A field of the AwairStats struct: the timestamp or a numeric field. -/
inductive StructField where
  | ts
  | num (f : Field14)
  deriving DecidableEq

/-- The json struct tag of each AwairStats field (src/main.go lines 47-62). -/
def fieldTag : StructField → String
  | .ts => "timestamp"
  | .num .score => "score"
  | .num .dewPoint => "dew_point"
  | .num .temp => "temp"
  | .num .humid => "humid"
  | .num .absHumid => "abs_humid"
  | .num .co2 => "co2"
  | .num .co2Est => "co2_est"
  | .num .co2EstBaseline => "co2_est_baseline"
  | .num .voc => "voc"
  | .num .vocBaseline => "voc_baseline"
  | .num .vocH2Raw => "voc_h2_raw"
  | .num .vocEthanolRaw => "voc_ethanol_raw"
  | .num .pm25 => "pm25"
  | .num .pm10Est => "pm10_est"

/-- The AwairStats struct fields in declaration order. -/
def allFields : List StructField :=
  [.ts, .num .score, .num .dewPoint, .num .temp, .num .humid,
   .num .absHumid, .num .co2, .num .co2Est, .num .co2EstBaseline,
   .num .voc, .num .vocBaseline, .num .vocH2Raw, .num .vocEthanolRaw,
   .num .pm25, .num .pm10Est]

/-- ASCII lower-casing of one character, the folding encoding/json applies
to field names when no exact match exists. -/
def foldChar (c : Char) : Char :=
  if 65 ≤ c.toNat ∧ c.toNat ≤ 90 then Char.ofNat (c.toNat + 32) else c

/-- ASCII case folding of a field name (the stdlib foldName). -/
def foldName (s : String) : String :=
  ⟨s.data.map foldChar⟩

/-- Which struct field a JSON object key is decoded into, following the
encoding/json field matcher: an exact tag match wins, otherwise the first
field whose tag matches under ASCII case folding; keys matching no field
are ignored. -/
def keyTarget (k : String) : Option StructField :=
  match allFields.find? (fun sf => fieldTag sf = k) with
  | some sf => some sf
  | none => allFields.find? (fun sf => foldName (fieldTag sf) = foldName k)

/-- The AwairStats record (src/main.go lines 46-63). The timestamp is a
time.Time, modelled by an integer time value; int fields are Int, float64
fields are modelled as exact rationals. -/
structure AwairStats where
  Timestamp : Int
  Score : Int
  DewPoint : ℚ
  Temp : ℚ
  Humid : ℚ
  AbsHumid : ℚ
  Co2 : Int
  Co2Est : Int
  Co2EstBaseline : Int
  Voc : Int
  VocBaseline : Int
  VocH2Raw : Int
  VocEthanolRaw : Int
  Pm25 : Int
  Pm10Est : Int
  deriving DecidableEq

/-- The Go zero value of AwairStats, the state of the record before
json.Unmarshal fills it (src/main.go line 265). -/
def zeroStats : AwairStats :=
  ⟨0, 0, 0, 0, 0, 0, 0, 0, 0, 0, 0, 0, 0, 0, 0⟩

/-- Whether a numeric field has Go type int (true) or float64 (false). -/
def isIntField : Field14 → Bool
  | .dewPoint | .temp | .humid | .absHumid => false
  | _ => true

/-- Errors json.Unmarshal can report while decoding the AwairStats record. -/
inductive DecodeErr where
  | syntaxErr
  | typeErr
  | timeErr
  deriving DecidableEq

/-- Store a decoded JSON number into a numeric field; int fields receive
the integer value (the decoder has already checked integrality), float64
fields the rational itself. -/
def updateField (f : Field14) (q : ℚ) (st : AwairStats) : AwairStats :=
  match f with
  | .score => { st with Score := q.num }
  | .dewPoint => { st with DewPoint := q }
  | .temp => { st with Temp := q }
  | .humid => { st with Humid := q }
  | .absHumid => { st with AbsHumid := q }
  | .co2 => { st with Co2 := q.num }
  | .co2Est => { st with Co2Est := q.num }
  | .co2EstBaseline => { st with Co2EstBaseline := q.num }
  | .voc => { st with Voc := q.num }
  | .vocBaseline => { st with VocBaseline := q.num }
  | .vocH2Raw => { st with VocH2Raw := q.num }
  | .vocEthanolRaw => { st with VocEthanolRaw := q.num }
  | .pm25 => { st with Pm25 := q.num }
  | .pm10Est => { st with Pm10Est := q.num }

/-- Decode a JSON number into a numeric field: a float64 field accepts any
number; an int field requires an integral value (the stdlib parses the
literal with ParseInt and rejects fractions). -/
def setNum (f : Field14) (q : ℚ) (st : AwairStats) : Except DecodeErr AwairStats :=
  if isIntField f = true ∧ q.den ≠ 1 then .error .typeErr
  else .ok (updateField f q st)

/-- Decode one object member into the record: unknown keys are ignored,
null is a silent no-op, the timestamp requires a parseable time string
(time.Time.UnmarshalJSON), numeric fields require a JSON number. -/
def assignMember (pt : String → Option Int) (st : AwairStats)
    (k : String) (v : Json) : Except DecodeErr AwairStats :=
  match keyTarget k with
  | none => .ok st
  | some .ts =>
    match v with
    | .null => .ok st
    | .str s =>
      match pt s with
      | some t => .ok { st with Timestamp := t }
      | none => .error .timeErr
    | _ => .error .timeErr
  | some (.num f) =>
    match v with
    | .null => .ok st
    | .num q => setNum f q st
    | _ => .error .typeErr

/-- Decode the members of a JSON object into the record, in order; later
members assigning the same field overwrite earlier ones. -/
def decodeMembers (pt : String → Option Int) :
    List (String × Json) → AwairStats → Except DecodeErr AwairStats
  | [], st => .ok st
  | (k, v) :: rest, st =>
    match assignMember pt st k v with
    | .ok st2 => decodeMembers pt rest st2
    | .error e => .error e

/-- json.Unmarshal of the response body into AwairStats (src/main.go line
266). The body is None when the bytes are not valid JSON at all; the top
level value must be an object (or null, which leaves the zero record). -/
def unmarshal (pt : String → Option Int) (b : Option Json) :
    Except DecodeErr AwairStats :=
  match b with
  | none => .error .syntaxErr
  | some .null => .ok zeroStats
  | some (.obj members) => decodeMembers pt members zeroStats
  | some _ => .error .typeErr

/-- The 14 prometheus gauges, one rational slot per gauge, named after the
exposed metric names (src/main.go lines 128-226). -/
structure GaugeState where
  temp_c : ℚ
  relative_humidity : ℚ
  co2_ppm : ℚ
  voc_ppb : ℚ
  pm25_ug_m3 : ℚ
  score : ℚ
  dew_point_c : ℚ
  absolute_humidity : ℚ
  co2_estimate : ℚ
  co2_estimate_baselines : ℚ
  voc_baseline : ℚ
  voc_h2_raw : ℚ
  voc_ethanol_raw : ℚ
  pm10_estimate : ℚ
  deriving DecidableEq

/-- Prometheus gauges start at 0; this is the gauge state right after
initializeGauges and before any poll. -/
def initialGauges : GaugeState :=
  ⟨0, 0, 0, 0, 0, 0, 0, 0, 0, 0, 0, 0, 0, 0⟩

/-- The block of Gauge.Set calls of a successful poll (src/main.go lines
272-285): every gauge is overwritten from the decoded record, int fields
cast to floating point. -/
def setGauges (s : AwairStats) : GaugeState where
  temp_c := s.Temp
  relative_humidity := s.Humid
  co2_ppm := (s.Co2 : ℚ)
  voc_ppb := (s.Voc : ℚ)
  pm25_ug_m3 := (s.Pm25 : ℚ)
  score := (s.Score : ℚ)
  dew_point_c := s.DewPoint
  absolute_humidity := s.AbsHumid
  co2_estimate := (s.Co2Est : ℚ)
  co2_estimate_baselines := (s.Co2EstBaseline : ℚ)
  voc_baseline := (s.VocBaseline : ℚ)
  voc_h2_raw := (s.VocH2Raw : ℚ)
  voc_ethanol_raw := (s.VocEthanolRaw : ℚ)
  pm10_estimate := (s.Pm10Est : ℚ)

/-- The value of a numeric record field as it is pushed into its gauge
(int fields cast to the rational value). -/
def statValue (s : AwairStats) : Field14 → ℚ
  | .score => (s.Score : ℚ)
  | .dewPoint => s.DewPoint
  | .temp => s.Temp
  | .humid => s.Humid
  | .absHumid => s.AbsHumid
  | .co2 => (s.Co2 : ℚ)
  | .co2Est => (s.Co2Est : ℚ)
  | .co2EstBaseline => (s.Co2EstBaseline : ℚ)
  | .voc => (s.Voc : ℚ)
  | .vocBaseline => (s.VocBaseline : ℚ)
  | .vocH2Raw => (s.VocH2Raw : ℚ)
  | .vocEthanolRaw => (s.VocEthanolRaw : ℚ)
  | .pm25 => (s.Pm25 : ℚ)
  | .pm10Est => (s.Pm10Est : ℚ)

/-- The gauge that exposes a given numeric field. -/
def gaugeValue (g : GaugeState) : Field14 → ℚ
  | .score => g.score
  | .dewPoint => g.dew_point_c
  | .temp => g.temp_c
  | .humid => g.relative_humidity
  | .absHumid => g.absolute_humidity
  | .co2 => g.co2_ppm
  | .co2Est => g.co2_estimate
  | .co2EstBaseline => g.co2_estimate_baselines
  | .voc => g.voc_ppb
  | .vocBaseline => g.voc_baseline
  | .vocH2Raw => g.voc_h2_raw
  | .vocEthanolRaw => g.voc_ethanol_raw
  | .pm25 => g.pm25_ug_m3
  | .pm10Est => g.pm10_estimate

/-- Reading the response body (ioutil.ReadAll, src/main.go line 259):
either the read fails, or it yields bytes, modelled by the JSON document
they parse to (none when they are not valid JSON). -/
inductive BodyResult where
  | readFailure
  | bytes (b : Option Json)

/-- How the environment behaves during one getAwairData call: request
construction fails, the transport call fails, or a response arrives with a
status code and a body. -/
inductive FetchOutcome where
  | reqBuildFailure
  | transportFailure
  | response (statusCode : Nat) (body : BodyResult)

/-- The error getAwairData returns, one constructor per early-return site
(src/main.go lines 247, 253, 260, 267). -/
inductive PollError where
  | requestErr
  | transportErr
  | bodyReadErr
  | decodeErr
  deriving DecidableEq

/-- getAwairData (src/main.go lines 242-290) as a function from the fetch
outcome and the prior gauge state to the returned error and the gauge
state after the call: each failure stage returns its error before any
Gauge.Set runs, and on success all 14 gauges are overwritten from the
decoded record. -/
def getAwairData (pt : String → Option Int) (o : FetchOutcome)
    (g : GaugeState) : Except PollError Unit × GaugeState :=
  match o with
  | .reqBuildFailure => (.error .requestErr, g)
  | .transportFailure => (.error .transportErr, g)
  | .response _ .readFailure => (.error .bodyReadErr, g)
  | .response _ (.bytes b) =>
    match unmarshal pt b with
    | .error _ => (.error .decodeErr, g)
    | .ok st => (.ok (), setGauges st)

/-- One stimulus the recordMetrics select loop can receive: the ticker
fires (and the poll it triggers meets the given fetch outcome), or the
context is cancelled. -/
inductive LoopEvent where
  | tick (o : FetchOutcome)
  | cancelled

/-- recordMetrics (src/main.go lines 228-240) over a finite stimulus
trace: each iteration selects between the ticker and cancellation; a tick
runs getAwairData (discarding its error), cancellation returns, ending the
loop regardless of any later stimuli. -/
def recordMetrics (pt : String → Option Int) (g : GaugeState) :
    List LoopEvent → GaugeState
  | [] => g
  | .cancelled :: _ => g
  | .tick o :: rest => recordMetrics pt (getAwairData pt o g).2 rest

/-- The per-call timeout getAwairData derives from its context
(context.WithTimeout(ctx, time.Second), src/main.go line 243), in
nanoseconds as Go durations are. -/
def pollCallTimeout_ns : Nat := 1000000000

/-- The constructor arguments of one prometheus gauge (the GaugeOpts
literals of src/main.go lines 128-226). -/
structure GaugeOpts where
  Namespace : String
  Subsystem : String
  Name : String
  Help : String
  deriving DecidableEq

/-- initializeGauges (src/main.go lines 128-226): the 14 gauges registered
at startup, in registration order, with their literal namespace,
subsystem, name and help strings. -/
def initializeGauges : List GaugeOpts :=
  [⟨"awair", "climate", "temp_c", "Dry bulb temperature (ºC)"⟩,
   ⟨"awair", "climate", "relative_humidity", "Relative Humidity (%)"⟩,
   ⟨"awair", "climate", "co2_ppm", "Carbon Dioxide (ppm)"⟩,
   ⟨"awair", "climate", "voc_ppb", "Total Volatile Organic Compounds (ppb)"⟩,
   ⟨"awair", "climate", "pm25_ug_m3", "Particulate matter less than 2.5 microns in diameter (µg/m³)"⟩,
   ⟨"awair", "climate", "score", "Awair Score (0-100)"⟩,
   ⟨"awair", "climate", "dew_point_c", "The temperature at which water will condense and form into dew (ºC)"⟩,
   ⟨"awair", "climate", "absolute_humidity", "Absolute Humidity (g/m³)"⟩,
   ⟨"awair", "climate", "co2_estimate", "Estimated Carbon Dioxide (ppm - calculated by the TVOC sensor)"⟩,
   ⟨"awair", "climate", "co2_estimate_baselines", "A unitless value that represents the baseline from which the TVOC sensor partially derives its estimated (e)CO₂output."⟩,
   ⟨"awair", "climate", "voc_baseline", "A unitless value that represents the baseline from which the TVOC sensor partially derives its TVOC output."⟩,
   ⟨"awair", "climate", "voc_h2_raw", "A unitless value that represents the Hydrogen gas signal from which the TVOC sensor partially derives its TVOC output."⟩,
   ⟨"awair", "climate", "voc_ethanol_raw", "A unitless value that represents the Ethanol gas signal from which the TVOC sensor partially derives its TVOC output."⟩,
   ⟨"awair", "climate", "pm10_estimate", "Estimated particulate matter less than 10 microns in diameter (µg/m³ - calculated by the PM2.5 sensor)"⟩]

/-- prometheus.BuildFQName for nonempty namespace, subsystem and name: the
fully qualified metric name under which a gauge is registered and exposed. -/
def buildFQName (opts : GaugeOpts) : String :=
  opts.Namespace ++ "_" ++ opts.Subsystem ++ "_" ++ opts.Name

/-- The fully qualified names of the registered gauges, in registration
order. -/
def registeredGaugeNames : List String :=
  initializeGauges.map buildFQName

/-- What a scrape of the metrics endpoint exposes: each registered gauge
name paired with its current value, in registration order. -/
def renderGauges (g : GaugeState) : List (String × ℚ) :=
  [("awair_climate_temp_c", g.temp_c),
   ("awair_climate_relative_humidity", g.relative_humidity),
   ("awair_climate_co2_ppm", g.co2_ppm),
   ("awair_climate_voc_ppb", g.voc_ppb),
   ("awair_climate_pm25_ug_m3", g.pm25_ug_m3),
   ("awair_climate_score", g.score),
   ("awair_climate_dew_point_c", g.dew_point_c),
   ("awair_climate_absolute_humidity", g.absolute_humidity),
   ("awair_climate_co2_estimate", g.co2_estimate),
   ("awair_climate_co2_estimate_baselines", g.co2_estimate_baselines),
   ("awair_climate_voc_baseline", g.voc_baseline),
   ("awair_climate_voc_h2_raw", g.voc_h2_raw),
   ("awair_climate_voc_ethanol_raw", g.voc_ethanol_raw),
   ("awair_climate_pm10_estimate", g.pm10_estimate)]

/-- The startup steps of main (src/main.go lines 87-111), in program
order. -/
inductive StartupStep where
  | initGauges
  | mountMetricsHandler
  | startPoller
  | startMetricsServer
  | awaitSignal
  deriving DecidableEq, BEq

/-- The order in which main performs its startup steps (src/main.go lines
87, 88, 90, 101, 111). -/
def mainStartupSequence : List StartupStep :=
  [.initGauges, .mountMetricsHandler, .startPoller, .startMetricsServer,
   .awaitSignal]

/-- Whether an object member is decoded into the given numeric field. -/
def targets (f : Field14) (kv : String × Json) : Bool :=
  match keyTarget kv.1 with
  | some (.num g) => decide (g = f)
  | _ => false

/-- The JSON values a payload assigns to one numeric field, in member
order. -/
def numAssigns (ms : List (String × Json)) (f : Field14) : List Json :=
  (ms.filter (targets f)).map Prod.snd

/-- The effect of decoding one JSON value into a numeric field, as seen
through statValue: null is a no-op, a number overwrites the field (int
fields take the integer value when it is integral), and any other value
makes the decoder error out, so the fallback branches are never reached on
a successful decode. -/
def applyNum (f : Field14) (v : ℚ) (j : Json) : ℚ :=
  match j with
  | .num q => if isIntField f = true then (if q.den = 1 then (q.num : ℚ) else v) else q
  | _ => v

/-- A JSON value that makes time.Time.UnmarshalJSON fail for the timestamp
field: anything except null and except a string the time parser accepts. -/
def badTimeValue (pt : String → Option Int) : Json → Prop
  | .null => False
  | .str s => pt s = none
  | .bool _ => True
  | .num _ => True
  | .arr _ => True
  | .obj _ => True

/-- A time parser accepting nothing, usable for payloads that carry no
timestamp. -/
def noTime : String → Option Int := fun _ => none

/-- A time parser accepting every string (as time value 42). -/
def anyTime : String → Option Int := fun _ => some 42

/-- The payload of the spec scenario: temp 21.5, co2 612, score 88. -/
def scenarioMembers : List (String × Json) :=
  [("temp", .num (43/2)), ("co2", .num 612), ("score", .num 88)]

/-- The record the scenario payload decodes to. -/
def scenarioStats : AwairStats :=
  { zeroStats with Temp := 43/2, Co2 := 612, Score := 88 }

/-- The scenario payload extended with a timestamp member and an unknown
extra member; its numeric reading fields match scenarioMembers. -/
def timestampedMembers : List (String × Json) :=
  [("temp", .num (43/2)), ("co2", .num 612), ("score", .num 88),
   ("timestamp", .str "2020-01-02T03:04:05Z"),
   ("device_uuid", .str "awair-element_12345")]

/-- A payload whose numeric reading field is valid but whose timestamp
member holds a number instead of a time string. -/
def badTimestampMembers : List (String × Json) :=
  [("temp", .num (43/2)), ("timestamp", .num 5)]

/-- A payload whose timestamp member is JSON null: not a string parseable
as a time, yet ignored by time.Time.UnmarshalJSON, so the decode
succeeds. -/
def nullTimestampMembers : List (String × Json) :=
  [("timestamp", .null), ("temp", .num (43/2))]

/-
Helper lemmas.
-/

/-- Unfolding lemma for decodeMembers on a cons cell. -/
theorem decodeMembers_cons (pt : String → Option Int) (k : String) (v : Json)
    (rest : List (String × Json)) (st0 : AwairStats) :
    decodeMembers pt ((k, v) :: rest) st0 =
      match assignMember pt st0 k v with
      | .ok st2 => decodeMembers pt rest st2
      | .error e => .error e := rfl

/-- Unfolding lemma for numAssigns on a cons cell. -/
theorem numAssigns_cons (k : String) (v : Json) (rest : List (String × Json))
    (f : Field14) :
    numAssigns ((k, v) :: rest) f =
      if targets f (k, v) then v :: numAssigns rest f else numAssigns rest f := by
  cases ht : targets f (k, v) <;> simp [numAssigns, List.filter_cons, ht]

/-- A member whose key does not resolve to the given numeric field is not
among its assignments. -/
theorem targets_eq_false (f : Field14) (kv : String × Json)
    (h : keyTarget kv.1 ≠ some (.num f)) : targets f kv = false := by
  unfold targets
  rcases hkt : keyTarget kv.1 with _ | sf
  · rfl
  · rcases sf with _ | g
    · rfl
    · simp only [decide_eq_false_iff_not]
      intro hgf
      exact h (by rw [hkt, hgf])

/-- The zero record carries 0 in every numeric field. -/
theorem statValue_zeroStats (f : Field14) : statValue zeroStats f = 0 := by
  cases f <;> simp [statValue, zeroStats]

/-- Each gauge set by setGauges holds exactly the value of its record
field. -/
theorem gaugeValue_setGauges (s : AwairStats) (f : Field14) :
    gaugeValue (setGauges s) f = statValue s f := by
  cases f <;> rfl

/-- Records agreeing on all 14 numeric fields are mapped to the same gauge
state. -/
theorem setGauges_eq_of_statValue {s1 s2 : AwairStats}
    (h : ∀ f, statValue s1 f = statValue s2 f) : setGauges s1 = setGauges s2 := by
  simp only [setGauges, GaugeState.mk.injEq]
  exact ⟨h .temp, h .humid, h .co2, h .voc, h .pm25, h .score, h .dewPoint,
    h .absHumid, h .co2Est, h .co2EstBaseline, h .vocBaseline, h .vocH2Raw,
    h .vocEthanolRaw, h .pm10Est⟩

/-- Writing a number into a field changes exactly that field. -/
theorem statValue_updateField_self (f : Field14) (q : ℚ) (st : AwairStats) :
    statValue (updateField f q st) f =
      if isIntField f = true then (q.num : ℚ) else q := by
  cases f <;> rfl

/-- Writing a number into one field leaves every other numeric field
unchanged. -/
theorem statValue_updateField_ne (f g : Field14) (q : ℚ) (st : AwairStats)
    (h : g ≠ f) : statValue (updateField g q st) f = statValue st f := by
  cases g <;> cases f <;> first
    | exact absurd rfl h
    | rfl

/-- Writing the timestamp leaves every numeric field unchanged. -/
theorem statValue_timestamp_update (t : Int) (st : AwairStats) (f : Field14) :
    statValue { st with Timestamp := t } f = statValue st f := by
  cases f <;> rfl

/-- Factoring lemma: after a successful decode, each numeric field equals
the fold of the assignments the payload makes to that field, starting from
its value in the initial record. In particular the decoded value of a
field depends only on the members that target it. -/
theorem decodeMembers_statValue (pt : String → Option Int)
    (ms : List (String × Json)) :
    ∀ st0 st : AwairStats, decodeMembers pt ms st0 = .ok st → ∀ f : Field14,
      statValue st f = (numAssigns ms f).foldl (applyNum f) (statValue st0 f) := by
  induction ms with
  | nil =>
    intro st0 st h f
    cases h
    rfl
  | cons kv rest ih =>
    intro st0 st h f
    obtain ⟨k, v⟩ := kv
    rw [decodeMembers_cons] at h
    rw [numAssigns_cons]
    rcases hkt : keyTarget k with _ | sf
    · simp only [assignMember, hkt] at h
      rw [if_neg (by simp [targets, hkt])]
      exact ih st0 st h f
    · rcases sf with _ | g
      · -- timestamp member
        rw [if_neg (by simp [targets, hkt])]
        rcases v with _ | b | q | s | a | o
        · simp only [assignMember, hkt] at h
          exact ih st0 st h f
        · simp only [assignMember, hkt] at h
          exact Except.noConfusion h
        · simp only [assignMember, hkt] at h
          exact Except.noConfusion h
        · rcases hpt : pt s with _ | t
          · simp only [assignMember, hkt, hpt] at h
            exact Except.noConfusion h
          · simp only [assignMember, hkt, hpt] at h
            replace h : decodeMembers pt rest { st0 with Timestamp := t } = Except.ok st := h
            rw [ih _ st h f, statValue_timestamp_update]
        · simp only [assignMember, hkt] at h
          exact Except.noConfusion h
        · simp only [assignMember, hkt] at h
          exact Except.noConfusion h
      · -- numeric member for field g
        rcases v with _ | b | q | s | a | o
        · -- null: silent no-op, also a no-op of the fold
          simp only [assignMember, hkt] at h
          by_cases hgf : g = f
          · rw [if_pos (by simp [targets, hkt, hgf])]
            rw [List.foldl_cons]
            exact ih st0 st h f
          · rw [if_neg (by simp [targets, hkt, hgf])]
            exact ih st0 st h f
        · simp only [assignMember, hkt] at h
          exact Except.noConfusion h
        · -- a number
          simp only [assignMember, hkt, setNum] at h
          by_cases hc : isIntField g = true ∧ q.den ≠ 1
          · rw [if_pos hc] at h
            exact Except.noConfusion h
          · rw [if_neg hc] at h
            replace h : decodeMembers pt rest (updateField g q st0) = Except.ok st := h
            by_cases hgf : g = f
            · subst hgf
              rw [if_pos (by simp [targets, hkt])]
              have key : statValue (updateField g q st0) g
                  = applyNum g (statValue st0 g) (.num q) := by
                rw [statValue_updateField_self]
                rcases hi : isIntField g with _ | _
                · simp [applyNum, hi]
                · have hden : q.den = 1 := by
                    by_contra hd
                    exact hc ⟨hi, hd⟩
                  simp [applyNum, hi, hden]
              rw [List.foldl_cons, ih _ st h g, key]
            · rw [if_neg (by simp [targets, hkt, hgf])]
              rw [ih _ st h f, statValue_updateField_ne f g q st0 hgf]
        · simp only [assignMember, hkt] at h
          exact Except.noConfusion h
        · simp only [assignMember, hkt] at h
          exact Except.noConfusion h
        · simp only [assignMember, hkt] at h
          exact Except.noConfusion h

/-- A payload none of whose members resolve to the given numeric field
assigns nothing to it. -/
theorem numAssigns_eq_nil (ms : List (String × Json)) (f : Field14)
    (h : ∀ kv ∈ ms, keyTarget kv.1 ≠ some (.num f)) : numAssigns ms f = [] := by
  induction ms with
  | nil => rfl
  | cons kv rest ih =>
    obtain ⟨k, v⟩ := kv
    rw [numAssigns_cons,
      if_neg (by simp [targets_eq_false f (k, v) (h (k, v) (List.mem_cons_self _ _))])]
    exact ih fun kv2 hm => h kv2 (List.mem_cons_of_mem _ hm)

/-- A member assigning an unparseable value to the timestamp makes the
whole decode fail, whatever record it starts from. -/
theorem decodeMembers_bad_ts (pt : String → Option Int)
    (ms : List (String × Json)) :
    ∀ st0 : AwairStats,
      (∃ kv ∈ ms, keyTarget kv.1 = some .ts ∧ badTimeValue pt kv.2) →
      ∃ e, decodeMembers pt ms st0 = .error e := by
  induction ms with
  | nil =>
    intro st0 h
    rcases h with ⟨kv, hmem, -, -⟩
    cases hmem
  | cons kv0 rest ih =>
    intro st0 h
    obtain ⟨k, v⟩ := kv0
    rcases h with ⟨kv, hmem, hts, hbad⟩
    rcases List.mem_cons.mp hmem with heq | hmem2
    · subst heq
      replace hts : keyTarget k = some StructField.ts := hts
      replace hbad : badTimeValue pt v := hbad
      have hassign : assignMember pt st0 k v = .error .timeErr := by
        rcases v with _ | b | q | s | a | o
        · exact (hbad : False).elim
        · simp [assignMember, hts]
        · simp [assignMember, hts]
        · simp only [badTimeValue] at hbad
          simp [assignMember, hts, hbad]
        · simp [assignMember, hts]
        · simp [assignMember, hts]
      exact ⟨.timeErr, by rw [decodeMembers_cons, hassign]⟩
    · cases hassign : assignMember pt st0 k v with
      | error e => exact ⟨e, by rw [decodeMembers_cons, hassign]⟩
      | ok st2 =>
        rcases ih st2 ⟨kv, hmem2, hts, hbad⟩ with ⟨e, he⟩
        refine ⟨e, ?_⟩
        rw [decodeMembers_cons, hassign]
        exact he

/-
Claim theorems.
-/

/-- Claim C1: for every JSON payload that decodes successfully, after a
successful poll each of the 14 exposed gauges equals the corresponding
payload field (temp to temp_c, humid to relative_humidity, co2 to co2_ppm,
voc to voc_ppb, pm25 to pm25_ug_m3, score to score, dew_point to
dew_point_c, abs_humid to absolute_humidity, co2_est to co2_estimate,
co2_est_baseline to co2_estimate_baselines, voc_baseline to voc_baseline,
voc_h2_raw to voc_h2_raw, voc_ethanol_raw to voc_ethanol_raw, pm10_est to
pm10_estimate), with integer fields cast to floating point. -/
theorem gauges_track_payload_fields (pt : String → Option Int) (sc : Nat)
    (b : Option Json) (g : GaugeState) (st : AwairStats)
    (h : unmarshal pt b = .ok st) :
    (getAwairData pt (.response sc (.bytes b)) g).1 = .ok () ∧
    (getAwairData pt (.response sc (.bytes b)) g).2.temp_c = st.Temp ∧
    (getAwairData pt (.response sc (.bytes b)) g).2.relative_humidity = st.Humid ∧
    (getAwairData pt (.response sc (.bytes b)) g).2.co2_ppm = (st.Co2 : ℚ) ∧
    (getAwairData pt (.response sc (.bytes b)) g).2.voc_ppb = (st.Voc : ℚ) ∧
    (getAwairData pt (.response sc (.bytes b)) g).2.pm25_ug_m3 = (st.Pm25 : ℚ) ∧
    (getAwairData pt (.response sc (.bytes b)) g).2.score = (st.Score : ℚ) ∧
    (getAwairData pt (.response sc (.bytes b)) g).2.dew_point_c = st.DewPoint ∧
    (getAwairData pt (.response sc (.bytes b)) g).2.absolute_humidity = st.AbsHumid ∧
    (getAwairData pt (.response sc (.bytes b)) g).2.co2_estimate = (st.Co2Est : ℚ) ∧
    (getAwairData pt (.response sc (.bytes b)) g).2.co2_estimate_baselines = (st.Co2EstBaseline : ℚ) ∧
    (getAwairData pt (.response sc (.bytes b)) g).2.voc_baseline = (st.VocBaseline : ℚ) ∧
    (getAwairData pt (.response sc (.bytes b)) g).2.voc_h2_raw = (st.VocH2Raw : ℚ) ∧
    (getAwairData pt (.response sc (.bytes b)) g).2.voc_ethanol_raw = (st.VocEthanolRaw : ℚ) ∧
    (getAwairData pt (.response sc (.bytes b)) g).2.pm10_estimate = (st.Pm10Est : ℚ) := by
  have hr : getAwairData pt (.response sc (.bytes b)) g = (.ok (), setGauges st) := by
    simp [getAwairData, h]
  rw [hr]
  exact ⟨rfl, rfl, rfl, rfl, rfl, rfl, rfl, rfl, rfl, rfl, rfl, rfl, rfl, rfl, rfl⟩

/-- Witness for C1: the spec scenario payload temp 21.5, co2 612, score 88. -/
theorem gauges_track_payload_fields_witness :
    (getAwairData noTime (.response 200 (.bytes (some (.obj scenarioMembers)))) initialGauges).1 = .ok () ∧
    (getAwairData noTime (.response 200 (.bytes (some (.obj scenarioMembers)))) initialGauges).2.temp_c = scenarioStats.Temp ∧
    (getAwairData noTime (.response 200 (.bytes (some (.obj scenarioMembers)))) initialGauges).2.relative_humidity = scenarioStats.Humid ∧
    (getAwairData noTime (.response 200 (.bytes (some (.obj scenarioMembers)))) initialGauges).2.co2_ppm = (scenarioStats.Co2 : ℚ) ∧
    (getAwairData noTime (.response 200 (.bytes (some (.obj scenarioMembers)))) initialGauges).2.voc_ppb = (scenarioStats.Voc : ℚ) ∧
    (getAwairData noTime (.response 200 (.bytes (some (.obj scenarioMembers)))) initialGauges).2.pm25_ug_m3 = (scenarioStats.Pm25 : ℚ) ∧
    (getAwairData noTime (.response 200 (.bytes (some (.obj scenarioMembers)))) initialGauges).2.score = (scenarioStats.Score : ℚ) ∧
    (getAwairData noTime (.response 200 (.bytes (some (.obj scenarioMembers)))) initialGauges).2.dew_point_c = scenarioStats.DewPoint ∧
    (getAwairData noTime (.response 200 (.bytes (some (.obj scenarioMembers)))) initialGauges).2.absolute_humidity = scenarioStats.AbsHumid ∧
    (getAwairData noTime (.response 200 (.bytes (some (.obj scenarioMembers)))) initialGauges).2.co2_estimate = (scenarioStats.Co2Est : ℚ) ∧
    (getAwairData noTime (.response 200 (.bytes (some (.obj scenarioMembers)))) initialGauges).2.co2_estimate_baselines = (scenarioStats.Co2EstBaseline : ℚ) ∧
    (getAwairData noTime (.response 200 (.bytes (some (.obj scenarioMembers)))) initialGauges).2.voc_baseline = (scenarioStats.VocBaseline : ℚ) ∧
    (getAwairData noTime (.response 200 (.bytes (some (.obj scenarioMembers)))) initialGauges).2.voc_h2_raw = (scenarioStats.VocH2Raw : ℚ) ∧
    (getAwairData noTime (.response 200 (.bytes (some (.obj scenarioMembers)))) initialGauges).2.voc_ethanol_raw = (scenarioStats.VocEthanolRaw : ℚ) ∧
    (getAwairData noTime (.response 200 (.bytes (some (.obj scenarioMembers)))) initialGauges).2.pm10_estimate = (scenarioStats.Pm10Est : ℚ) :=
  gauges_track_payload_fields noTime 200 (some (.obj scenarioMembers))
    initialGauges scenarioStats rfl

/-- Claim C2: if the poll fails at any stage (request construction,
transport, body read, JSON decode), no gauge is modified by that poll:
the gauge state after the failed call is exactly the state before it. -/
theorem failed_poll_preserves_gauges (pt : String → Option Int)
    (o : FetchOutcome) (g : GaugeState) (e : PollError)
    (h : (getAwairData pt o g).1 = .error e) :
    (getAwairData pt o g).2 = g := by
  rcases o with _ | _ | ⟨sc, body⟩
  · rfl
  · rfl
  · rcases body with _ | b
    · rfl
    · rcases hu : unmarshal pt b with e2 | st
      · simp [getAwairData, hu]
      · simp [getAwairData, hu] at h

/-- Witness for C2: a transport failure leaves previously set gauge values
in place. -/
theorem failed_poll_preserves_gauges_witness :
    (getAwairData noTime .transportFailure (setGauges scenarioStats)).1 = .error .transportErr ∧
    (getAwairData noTime .transportFailure (setGauges scenarioStats)).2 = setGauges scenarioStats :=
  ⟨rfl, failed_poll_preserves_gauges noTime .transportFailure
    (setGauges scenarioStats) .transportErr rfl⟩

/-- Claim C3: for every JSON payload in which some of the 14 reading
fields are absent, a successful poll sets each gauge corresponding to an
absent field to zero. -/
theorem absent_fields_read_zero (pt : String → Option Int)
    (ms : List (String × Json)) (st : AwairStats) (f : Field14) (sc : Nat)
    (g : GaugeState)
    (h : unmarshal pt (some (.obj ms)) = .ok st)
    (habs : ∀ kv ∈ ms, keyTarget kv.1 ≠ some (.num f)) :
    gaugeValue (getAwairData pt (.response sc (.bytes (some (.obj ms)))) g).2 f = 0 := by
  have hd : decodeMembers pt ms zeroStats = .ok st := h
  have hs : statValue st f = 0 := by
    rw [decodeMembers_statValue pt ms zeroStats st hd f,
      numAssigns_eq_nil ms f habs, List.foldl_nil, statValue_zeroStats]
  have hr : (getAwairData pt (.response sc (.bytes (some (.obj ms)))) g).2 = setGauges st := by
    simp [getAwairData, h]
  rw [hr, gaugeValue_setGauges, hs]

/-- Witness for C3: the scenario payload has no voc member, so the voc_ppb
gauge reads 0 after the poll. -/
theorem absent_fields_read_zero_witness :
    gaugeValue (getAwairData noTime (.response 200 (.bytes (some (.obj scenarioMembers)))) initialGauges).2 .voc = 0 :=
  absent_fields_read_zero noTime scenarioMembers scenarioStats .voc 200
    initialGauges rfl (by decide)

/-- Claim C4: the sensor client performs no HTTP status code check: every
response whose body decodes into the reading record is a success and sets
all 14 gauges from the decoded record, whatever the status code, and the
result of the call never depends on the status code. -/
theorem no_status_code_check (pt : String → Option Int) (sc : Nat)
    (b : Option Json) (g : GaugeState) (st : AwairStats)
    (h : unmarshal pt b = .ok st) :
    getAwairData pt (.response sc (.bytes b)) g = (.ok (), setGauges st) ∧
    ∀ sc2 : Nat, getAwairData pt (.response sc2 (.bytes b)) g
      = getAwairData pt (.response sc (.bytes b)) g := by
  constructor
  · simp [getAwairData, h]
  · intro sc2
    rfl

/-- Witness for C4: a 500 response with the scenario body still updates
the gauges and reports success. -/
theorem no_status_code_check_witness :
    getAwairData noTime (.response 500 (.bytes (some (.obj scenarioMembers)))) initialGauges
      = (.ok (), setGauges scenarioStats) :=
  (no_status_code_check noTime 500 (some (.obj scenarioMembers))
    initialGauges scenarioStats rfl).1

/-- Claim C5: the poll fetch returns an error if and only if one of the
four failure stages occurs, each stage reported by its own distinct error,
and on success it returns no error. -/
theorem fetch_error_stages (pt : String → Option Int) (o : FetchOutcome)
    (g : GaugeState) :
    ((getAwairData pt o g).1 = .error .requestErr ↔ o = .reqBuildFailure) ∧
    ((getAwairData pt o g).1 = .error .transportErr ↔ o = .transportFailure) ∧
    ((getAwairData pt o g).1 = .error .bodyReadErr ↔
      ∃ sc, o = .response sc .readFailure) ∧
    ((getAwairData pt o g).1 = .error .decodeErr ↔
      ∃ sc b e, o = .response sc (.bytes b) ∧ unmarshal pt b = .error e) ∧
    ((getAwairData pt o g).1 = .ok () ↔
      ∃ sc b st, o = .response sc (.bytes b) ∧ unmarshal pt b = .ok st) := by
  rcases o with _ | _ | ⟨sc, body⟩
  · simp [getAwairData]
  · simp [getAwairData]
  · rcases body with _ | b
    · simp [getAwairData]
    · rcases hu : unmarshal pt b with e2 | st <;> simp [getAwairData, hu]
      · exact ⟨sc, b, ⟨rfl, rfl⟩, e2, hu⟩
      · exact ⟨sc, b, ⟨rfl, rfl⟩, st, hu⟩

/-- Claim C6: polling is idempotent on the gauge state: a second
successful poll with the identical payload reproduces exactly the gauge
state the first one produced. -/
theorem poll_idempotent (pt : String → Option Int) (o : FetchOutcome)
    (g g1 : GaugeState) (h : getAwairData pt o g = (.ok (), g1)) :
    getAwairData pt o g1 = (.ok (), g1) := by
  rcases o with _ | _ | ⟨sc, body⟩
  · simp [getAwairData] at h
  · simp [getAwairData] at h
  · rcases body with _ | b
    · simp [getAwairData] at h
    · rcases hu : unmarshal pt b with e2 | st
      · simp [getAwairData, hu] at h
      · simp only [getAwairData, hu, Prod.mk.injEq, true_and] at h
        simp only [getAwairData, hu]
        rw [h]

/-- Witness for C6: polling the scenario payload again from the gauge
state it produced leaves that state unchanged. -/
theorem poll_idempotent_witness :
    getAwairData noTime (.response 200 (.bytes (some (.obj scenarioMembers)))) (setGauges scenarioStats)
      = (.ok (), setGauges scenarioStats) :=
  poll_idempotent noTime (.response 200 (.bytes (some (.obj scenarioMembers))))
    initialGauges (setGauges scenarioStats) rfl

/-- Claim C7: all 14 gauges are registered exactly once, before the
metrics server starts (and before the poller starts), and a scrape prior
to the first poll exposes all 14 metric names, each with value 0. -/
theorem gauges_registered_once_before_serving :
    registeredGaugeNames.Nodup ∧
    registeredGaugeNames.length = 14 ∧
    mainStartupSequence.indexOf StartupStep.initGauges
      < mainStartupSequence.indexOf StartupStep.startMetricsServer ∧
    mainStartupSequence.indexOf StartupStep.initGauges
      < mainStartupSequence.indexOf StartupStep.startPoller ∧
    (renderGauges initialGauges).map Prod.fst = registeredGaugeNames ∧
    ∀ p ∈ renderGauges initialGauges, p.2 = 0 := by
  exact ⟨by decide, by rfl, by decide, by decide, by rfl, by decide⟩

/-- Claim C8: the poll loop selects between the ticker and cancellation,
returns on cancellation, and performs no further polls afterwards: the
gauge state after a trace that reaches a cancellation ignores every
stimulus behind it; each in-flight call is bounded by the one second
timeout the code derives from the loop context. -/
theorem poll_loop_stops_on_cancellation (pt : String → Option Int)
    (g : GaugeState) (evs post : List LoopEvent) :
    recordMetrics pt g (LoopEvent.cancelled :: post) = g ∧
    recordMetrics pt g (evs ++ LoopEvent.cancelled :: post)
      = recordMetrics pt g (evs ++ [LoopEvent.cancelled]) ∧
    pollCallTimeout_ns = 1000000000 := by
  refine ⟨rfl, ?_, rfl⟩
  induction evs generalizing g with
  | nil => rfl
  | cons e rest ih =>
    cases e with
    | cancelled => rfl
    | tick o =>
      rw [List.cons_append, List.cons_append]
      exact ih (getAwairData pt o g).2

/-- Claim C9: the gauge state after a successful poll depends only on the
14 numeric reading fields of the payload: two payloads that agree on the
values they assign to those fields, while differing in timestamp or
unknown extra members (or being polled under different status codes, time
parsers, or prior gauge states), produce identical gauge values; the
decoded timestamp is never written to any gauge. -/
theorem gauges_depend_only_on_reading_fields (pt1 pt2 : String → Option Int)
    (ms1 ms2 : List (String × Json)) (st1 st2 : AwairStats) (sc1 sc2 : Nat)
    (g1 g2 : GaugeState)
    (h1 : unmarshal pt1 (some (.obj ms1)) = .ok st1)
    (h2 : unmarshal pt2 (some (.obj ms2)) = .ok st2)
    (hagree : ∀ f : Field14, numAssigns ms1 f = numAssigns ms2 f) :
    (getAwairData pt1 (.response sc1 (.bytes (some (.obj ms1)))) g1).2
      = (getAwairData pt2 (.response sc2 (.bytes (some (.obj ms2)))) g2).2 := by
  have hd1 : decodeMembers pt1 ms1 zeroStats = .ok st1 := h1
  have hd2 : decodeMembers pt2 ms2 zeroStats = .ok st2 := h2
  have hst : ∀ f, statValue st1 f = statValue st2 f := by
    intro f
    rw [decodeMembers_statValue pt1 ms1 zeroStats st1 hd1 f,
      decodeMembers_statValue pt2 ms2 zeroStats st2 hd2 f, hagree f]
  have hr1 : (getAwairData pt1 (.response sc1 (.bytes (some (.obj ms1)))) g1).2 = setGauges st1 := by
    simp [getAwairData, h1]
  have hr2 : (getAwairData pt2 (.response sc2 (.bytes (some (.obj ms2)))) g2).2 = setGauges st2 := by
    simp [getAwairData, h2]
  rw [hr1, hr2, setGauges_eq_of_statValue hst]

/-- Witness for C9: the scenario payload with a timestamp and an unknown
extra member yields the same gauges as the bare scenario payload, even
under a different status code, time parser and prior gauge state. -/
theorem gauges_depend_only_on_reading_fields_witness :
    (getAwairData anyTime (.response 200 (.bytes (some (.obj timestampedMembers)))) initialGauges).2
      = (getAwairData noTime (.response 404 (.bytes (some (.obj scenarioMembers)))) (setGauges scenarioStats)).2 :=
  gauges_depend_only_on_reading_fields anyTime noTime timestampedMembers
    scenarioMembers { scenarioStats with Timestamp := 42 } scenarioStats 200 404
    initialGauges (setGauges scenarioStats) rfl rfl (fun f => by cases f <;> rfl)

/-- Claim C10, corrected: the claim as stated is false for a JSON null
timestamp, which is not a string parseable as a time yet is ignored by
time.Time.UnmarshalJSON (the counterexample below shows the decode
succeeding and a gauge being updated at a null timestamp). Amended claim:
a payload whose timestamp member is neither JSON null nor a string the
time parser accepts makes the whole JSON decode fail: the poll reports a
decode error and no gauge is updated, whatever the other members hold. -/
theorem bad_timestamp_fails_poll (pt : String → Option Int)
    (ms : List (String × Json)) (sc : Nat) (g : GaugeState)
    (h : ∃ kv ∈ ms, keyTarget kv.1 = some .ts ∧ badTimeValue pt kv.2) :
    getAwairData pt (.response sc (.bytes (some (.obj ms)))) g = (.error .decodeErr, g) := by
  rcases decodeMembers_bad_ts pt ms zeroStats h with ⟨e, he⟩
  have hu : unmarshal pt (some (.obj ms)) = .error e := he
  simp [getAwairData, hu]

/-- Witness for C10: a numeric timestamp member fails the poll even though
the temp member is valid, and the gauges keep their prior values. -/
theorem bad_timestamp_fails_poll_witness :
    getAwairData anyTime (.response 200 (.bytes (some (.obj badTimestampMembers)))) initialGauges
      = (.error .decodeErr, initialGauges) :=
  bad_timestamp_fails_poll anyTime badTimestampMembers 200 initialGauges
    ⟨("timestamp", Json.num 5), List.Mem.tail _ (List.Mem.head _), rfl, trivial⟩

/-- Counterexample to C10 as stated: the payload with a null timestamp and
temp 21.5 carries a timestamp member that is not a string (so not a string
parseable as a time), yet the poll succeeds and the temp gauge is updated
to 21.5, because time.Time.UnmarshalJSON ignores null. -/
theorem bad_timestamp_fails_poll_counterexample :
    ("timestamp", Json.null) ∈ nullTimestampMembers ∧
    (∀ s : String, Json.null ≠ Json.str s) ∧
    (getAwairData noTime (.response 200 (.bytes (some (.obj nullTimestampMembers)))) initialGauges).1 = .ok () ∧
    (getAwairData noTime (.response 200 (.bytes (some (.obj nullTimestampMembers)))) initialGauges).2.temp_c = 43/2 :=
  ⟨List.Mem.head _, fun _ h => Json.noConfusion h, rfl, rfl⟩

end AwairExporter
